import Mathlib

/-!
Verification of the PMC (porous media combustor) steady-state model,
a shallow embedding of src/PMC.py and src/Properties.py over exact
rationals.  Python floats are modelled by ℚ; float division by zero is
modelled explicitly with an error monad where the program can raise.
-/

/-- Dimensional parameter set: the attributes copied from a properties
object by the constructor of the Python class PMC (src/PMC.py lines 15-24).
Units as in src/Properties.py: conductivity in W per m K, length in m,
mass flux in kg per square meter second, pore diameters in m,
temperature offsets in K. -/
structure PMCData where
  lambda_eff : ℚ
  voidFrac : ℚ
  massFlux : ℚ
  L : ℚ
  dp_upstr : ℚ
  dp_dwnstr : ℚ
  emissivity : ℚ
  DeltaT_PH : ℚ
  DeltaT_RC : ℚ
deriving DecidableEq

/-- The InterfaceStabilized preset of src/Properties.py, exact rationals:
lambda_eff 8.7, L 3.0 times 0.0254, massFlux 2.0, voidFrac 0.805,
dp_upstr 0.492e-3, dp_dwnstr 3.192e-3, emissivity 0.9, offsets 20 K. -/
def InterfaceStabilized : PMCData :=
  { lambda_eff := 87/10
    voidFrac := 805/1000
    massFlux := 2
    L := 3 * (254/10000)
    dp_upstr := 492/1000000
    dp_dwnstr := 3192/1000000
    emissivity := 9/10
    DeltaT_PH := 20
    DeltaT_RC := 20 }

/-- Exceptions the Python code can raise on the dimensional path, plus the
two error kinds named by the specification (ConfigurationError and
DomainError), which no code in the repository defines or raises: they are
included so that statements about them can be expressed.
zeroDivisionError models Python float division by zero; nameError_ct models
the NameError raised at the line `delta = (16.*ct.stefan_boltzmann*T0**3)/...`
in src/PMC.py line 37, since the module imports only numpy and sympy and
the name `ct` is unbound. -/
inductive PyError
  | zeroDivisionError
  | nameError_ct
  | configurationError
  | domainError
deriving DecidableEq

/-- Extinction coefficient of the upstream pore population, transcribed
from src/PMC.py line 32: `K_R_1 = 3*(1.-self.voidFrac)/(self.dp_upstr*1000.)`. -/
def K_R_1 (p : PMCData) : ℚ := 3 * (1 - p.voidFrac) / (p.dp_upstr * 1000)

/-- Extinction coefficient of the downstream pore population, transcribed
from src/PMC.py line 33: `K_R_2 = 3*(1.-self.voidFrac)/(self.dp_dwnstr*1000.)`. -/
def K_R_2 (p : PMCData) : ℚ := 3 * (1 - p.voidFrac) / (p.dp_dwnstr * 1000)

/-- `K_R = np.average([K_R_1,K_R_2])` of src/PMC.py line 34. -/
def K_R (p : PMCData) : ℚ := (K_R_1 p + K_R_2 p) / 2

/-- `iota = self.lambda_eff/(self.massFlux*cp*self.L)` of src/PMC.py line 36. -/
def PMC.iota (p : PMCData) (cp : ℚ) : ℚ := p.lambda_eff / (p.massFlux * cp * p.L)

/-- Modelled from the spec: the Group Reducer of spec section 4.1 computes
an extinction coefficient per pore population as 3 times (1 - voidFraction)
divided by poreDiameter, with the pore diameter in metres, yielding
reciprocal metres.  This is the spec-side formula for the upstream
population, to be compared with K_R_1 as the code computes it. -/
def specK_R_1 (p : PMCData) : ℚ := 3 * (1 - p.voidFrac) / p.dp_upstr

/-- The dimensional entry point PMC.run of src/PMC.py lines 27-71, embedded
up to the point where control can no longer proceed.  Python evaluates, in
order: `th_3a = T3a/T0` and `th_4 = T4/T0` (ZeroDivisionError when T0 is 0),
`K_R_1` and `K_R_2` (ZeroDivisionError when a pore diameter is 0),
`K_R`, `iota` (ZeroDivisionError when massFlux*cp*L is 0), and then
`delta = (16.*ct.stefan_boltzmann*T0**3)/(3.*K_R*self.lambda_eff)`, which
unconditionally raises NameError because `ct` is unbound in the module.
Hence the function never returns normally; the success type is never
produced. -/
def PMC.run (p : PMCData) (cp T0 T3a T4 f f_st LHV : ℚ) : Except PyError Unit :=
  if T0 = 0 then .error .zeroDivisionError
  else if p.dp_upstr * 1000 = 0 then .error .zeroDivisionError
  else if p.dp_dwnstr * 1000 = 0 then .error .zeroDivisionError
  else if p.massFlux * cp * p.L = 0 then .error .zeroDivisionError
  else .error .nameError_ct

example : K_R_1 InterfaceStabilized = 195/164 := by
  norm_num [K_R_1, InterfaceStabilized]
example : specK_R_1 InterfaceStabilized = 48750/41 := by
  norm_num [specK_R_1, InterfaceStabilized]
example : PMC.run InterfaceStabilized 1200 300 683 1400 1 1 1 = .error .nameError_ct := by
  norm_num [PMC.run, InterfaceStabilized]

/-- Non-dimensional parameter set: the attributes copied by the constructor
of the Python class PMCNondim (src/PMC.py lines 86-91). -/
structure NondimData where
  iota : ℚ
  delta : ℚ
  mu : ℚ
  DeltaT_PH : ℚ
  DeltaT_RC : ℚ
deriving DecidableEq

/-- The InterfaceStabilizedNondim preset of src/Properties.py:
iota 0.05, delta 1.38, mu 0.0, offsets 20 K. -/
def InterfaceStabilizedNondim : NondimData :=
  { iota := 5/100, delta := 138/100, mu := 0, DeltaT_PH := 20, DeltaT_RC := 20 }

/-- The vector of five non-dimensional unknowns, in the order the unknowns
are passed to nsolve in src/PMC.py line 115:
(THETA_3x, THETA_3y, THETA_3b, THETA_S1, THETA_S2). -/
structure Theta where
  th_3x : ℚ
  th_3y : ℚ
  th_3b : ℚ
  th_S1 : ℚ
  th_S2 : ℚ
deriving DecidableEq

/-- First residual assembled by PMCNondim.run, transcribed from src/PMC.py
lines 106-107, with the local bindings `th_3a = T3a/T0` of line 85 kept as
a let binding. -/
def PMCNondim.f1 (p : NondimData) (cp T0 T3a T4 f f_st LHV : ℚ) (v : Theta) : ℚ :=
  let th_3a := T3a / T0
  p.iota * ((1 + p.delta * ((v.th_S1 + v.th_S2) / 2) ^ 3) * (v.th_S2 - v.th_S1) -
      p.delta * p.mu * (v.th_S1 ^ 4 - th_3a ^ 4)) - (v.th_3x - th_3a)

/-- Second residual assembled by PMCNondim.run, transcribed from src/PMC.py
line 108; the rebinding of LHV on lines 91-94 (lean and rich branches) is
kept as a let binding, exactly as executed before the equation is built. -/
def PMCNondim.f2 (p : NondimData) (cp T0 T3a T4 f f_st LHV : ℚ) (v : Theta) : ℚ :=
  let LHV := if f < f_st then LHV else LHV / (f / f_st)
  f / (f + 1) * (LHV / (cp * T0)) - (v.th_3y - v.th_3x)

/-- Third residual assembled by PMCNondim.run, transcribed from src/PMC.py
lines 109-110, with `th_4 = T4/T0` of line 86 kept as a let binding. -/
def PMCNondim.f3 (p : NondimData) (cp T0 T3a T4 f f_st LHV : ℚ) (v : Theta) : ℚ :=
  let th_4 := T4 / T0
  p.iota * ((1 + p.delta * ((v.th_S1 + v.th_S2) / 2) ^ 3) * (v.th_S2 - v.th_S1) +
      p.delta * p.mu * (v.th_S2 ^ 4 - th_4 ^ 4)) - (v.th_3y - v.th_3b)

/-- Fourth residual assembled by PMCNondim.run, transcribed from src/PMC.py
line 111, with `Delta1 = self.DeltaT_PH/T0` of line 88 kept as a let binding. -/
def PMCNondim.f4 (p : NondimData) (cp T0 T3a T4 f f_st LHV : ℚ) (v : Theta) : ℚ :=
  let Delta1 := p.DeltaT_PH / T0
  Delta1 - (v.th_S1 - v.th_3x)

/-- Fifth residual assembled by PMCNondim.run, transcribed from src/PMC.py
line 112, with `Delta2 = self.DeltaT_RC/T0` of line 89 kept as a let binding. -/
def PMCNondim.f5 (p : NondimData) (cp T0 T3a T4 f f_st LHV : ℚ) (v : Theta) : ℚ :=
  let Delta2 := p.DeltaT_RC / T0
  Delta2 - (v.th_3b - v.th_S2)

/-- The call to nsolve on src/PMC.py lines 114-117: the five residual
equations, the initial guess tuple (in the order of the unknown tuple
(th_3x, th_3y, th_3b, th_S1, th_S2)), and the convergence tolerance. -/
structure SolveCall where
  eqs : List (Theta → ℚ)
  guess : Theta
  tol : ℚ

/-- The nsolve invocation assembled by PMCNondim.run (src/PMC.py lines
114-117): equations (f1,...,f5), initial guess
((T3a+1000)/T3a, (T3a+1500)/T3a, (T3a+1000)/T3a, (T3a+1000)/T3a,
(T3a+1000)/T3a) and tol=1e-6. -/
def PMCNondim.solveCall (p : NondimData) (cp T0 T3a T4 f f_st LHV : ℚ) : SolveCall :=
  { eqs := [PMCNondim.f1 p cp T0 T3a T4 f f_st LHV,
            PMCNondim.f2 p cp T0 T3a T4 f f_st LHV,
            PMCNondim.f3 p cp T0 T3a T4 f f_st LHV,
            PMCNondim.f4 p cp T0 T3a T4 f f_st LHV,
            PMCNondim.f5 p cp T0 T3a T4 f f_st LHV]
    guess := { th_3x := (T3a + 1000) / T3a
               th_3y := (T3a + 1500) / T3a
               th_3b := (T3a + 1000) / T3a
               th_S1 := (T3a + 1000) / T3a
               th_S2 := (T3a + 1000) / T3a }
    tol := 1 / 1000000 }

/-- Errors the external sympy nsolve routine can raise (non-convergence or
any other exception); the repository contains no solver code, so the
outcome of the call is an abstract parameter of the embedding. -/
inductive SolverErr
  | convergenceError
  | otherException
deriving DecidableEq

/-- Observable attribute state of a PMCNondim object: the five result
attributes assigned on lines 120-121 of src/PMC.py, absent before the
first successful run. -/
structure PMCState where
  T3x : Option ℚ
  T3y : Option ℚ
  T3b : Option ℚ
  TS1 : Option ℚ
  TS2 : Option ℚ
deriving DecidableEq

/-- Tail of PMCNondim.run from the nsolve call onwards (src/PMC.py lines
114-121), parameterized by the outcome of the external nsolve call: when
nsolve raises, the exception propagates out of run before any assignment
to self, so the object state is returned untouched; when nsolve returns
SOL, the code executes `SOL *= T0` and assigns the five attributes. -/
def PMCNondim.runWith (s : PMCState) (T0 : ℚ) (outcome : Except SolverErr Theta) :
    Except SolverErr Unit × PMCState :=
  match outcome with
  | .error e => (.error e, s)
  | .ok SOL =>
      (.ok (), { T3x := some (SOL.th_3x * T0)
                 T3y := some (SOL.th_3y * T0)
                 T3b := some (SOL.th_3b * T0)
                 TS1 := some (SOL.th_S1 * T0)
                 TS2 := some (SOL.th_S2 * T0) })

example :
    PMCNondim.f2 InterfaceStabilizedNondim 1 1 1 1 1 2 1 ⟨5/4, 7/4, 3/2, 5/4, 3/2⟩ = 0 := by
  norm_num [PMCNondim.f2, InterfaceStabilizedNondim]

/-- Cancellation of a common nonzero factor in numerator and denominator of
a rational division, valid also when the remaining denominator is zero. -/
theorem mul_div_mul_cancel_q (k a b : ℚ) (hk : k ≠ 0) : k * a / (k * b) = a / b := by
  rcases eq_or_ne b 0 with rfl | hb
  · simp
  · rw [div_eq_div_iff (by exact mul_ne_zero hk hb) hb]
    ring

/-- C6: the Equation Builder assembles exactly the five residual functions
of spec section 4.2 in the five unknowns, with theta_3a = T3a/T0 and
theta_4 = T4/T0 non-dimensionalized before insertion: residual 1 is
iota*((1+delta*((thS1+thS2)/2)^3)*(thS2-thS1) - delta*mu*(thS1^4-th3a^4))
- (th3x-th3a), residual 3 has the same conductive/radiative term with
+delta*mu*(thS2^4-th4^4) and right side (th3y-th3b), and residuals 4 and 5
are DeltaT_PH/T0 - (thS1-th3x) and DeltaT_RC/T0 - (th3b-thS2). -/
theorem equations_match_spec (p : NondimData) (cp T0 T3a T4 f f_st LHV : ℚ) (v : Theta) :
    (PMCNondim.solveCall p cp T0 T3a T4 f f_st LHV).eqs =
      [PMCNondim.f1 p cp T0 T3a T4 f f_st LHV,
       PMCNondim.f2 p cp T0 T3a T4 f f_st LHV,
       PMCNondim.f3 p cp T0 T3a T4 f f_st LHV,
       PMCNondim.f4 p cp T0 T3a T4 f f_st LHV,
       PMCNondim.f5 p cp T0 T3a T4 f f_st LHV] ∧
    PMCNondim.f1 p cp T0 T3a T4 f f_st LHV v =
      p.iota * ((1 + p.delta * ((v.th_S1 + v.th_S2) / 2) ^ 3) * (v.th_S2 - v.th_S1) -
          p.delta * p.mu * (v.th_S1 ^ 4 - (T3a / T0) ^ 4)) - (v.th_3x - T3a / T0) ∧
    PMCNondim.f3 p cp T0 T3a T4 f f_st LHV v =
      p.iota * ((1 + p.delta * ((v.th_S1 + v.th_S2) / 2) ^ 3) * (v.th_S2 - v.th_S1) +
          p.delta * p.mu * (v.th_S2 ^ 4 - (T4 / T0) ^ 4)) - (v.th_3y - v.th_3b) ∧
    PMCNondim.f4 p cp T0 T3a T4 f f_st LHV v = p.DeltaT_PH / T0 - (v.th_S1 - v.th_3x) ∧
    PMCNondim.f5 p cp T0 T3a T4 f f_st LHV v = p.DeltaT_RC / T0 - (v.th_3b - v.th_S2) :=
  ⟨rfl, rfl, rfl, rfl, rfl⟩

/-- C9: every nsolve invocation is started from the initial guess vector in
which each of th3x, th3b, thS1, thS2 is seeded at (T3a+1000)/T3a and th3y
is seeded at (T3a+1500)/T3a, with convergence tolerance 1e-6. -/
theorem solver_guess_and_tol (p : NondimData) (cp T0 T3a T4 f f_st LHV : ℚ) :
    (PMCNondim.solveCall p cp T0 T3a T4 f f_st LHV).guess =
      { th_3x := (T3a + 1000) / T3a
        th_3y := (T3a + 1500) / T3a
        th_3b := (T3a + 1000) / T3a
        th_S1 := (T3a + 1000) / T3a
        th_S2 := (T3a + 1000) / T3a } ∧
    (PMCNondim.solveCall p cp T0 T3a T4 f f_st LHV).tol = 1 / 1000000 :=
  ⟨rfl, rfl⟩

/-- C10: if the nonlinear solve raises, none of the result attributes are
assigned: the error propagates and the observable object state is exactly
what it was before the failed call. -/
theorem run_atomic_on_error (s : PMCState) (T0 : ℚ) (e : SolverErr) :
    PMCNondim.runWith s T0 (Except.error e) = (Except.error e, s) :=
  rfl

/-- C5: in equation 2, if f < f_st the effective heating value equals LHV
unmodified (lean branch), and if f_st <= f it equals LHV/(f/f_st) (rich
branch); the residual is f/(f+1)*(LHV_eff/(cp*T0)) - (th3y-th3x). -/
theorem lean_rich_branch (p : NondimData) (cp T0 T3a T4 f f_st LHV : ℚ) (v : Theta) :
    (f < f_st → PMCNondim.f2 p cp T0 T3a T4 f f_st LHV v =
      f / (f + 1) * (LHV / (cp * T0)) - (v.th_3y - v.th_3x)) ∧
    (f_st ≤ f → PMCNondim.f2 p cp T0 T3a T4 f f_st LHV v =
      f / (f + 1) * (LHV / (f / f_st) / (cp * T0)) - (v.th_3y - v.th_3x)) := by
  constructor
  · intro h
    simp only [PMCNondim.f2, if_pos h]
  · intro h
    simp only [PMCNondim.f2, if_neg (not_lt.mpr h)]

/-- Witness for C5: both branches exercised at concrete inputs, lean at
f = 1 < f_st = 2 and rich at f = 3 with f_st = 2. -/
theorem lean_rich_branch_witness :
    ((1 : ℚ) < 2 ∧
      PMCNondim.f2 InterfaceStabilizedNondim 1 1 1 1 1 2 7 ⟨1, 1, 1, 1, 1⟩ =
        1 / (1 + 1) * (7 / (1 * 1)) - ((1 : ℚ) - 1)) ∧
    ((2 : ℚ) ≤ 3 ∧
      PMCNondim.f2 InterfaceStabilizedNondim 1 1 1 1 3 2 7 ⟨1, 1, 1, 1, 1⟩ =
        3 / (3 + 1) * (7 / (3 / 2) / (1 * 1)) - ((1 : ℚ) - 1)) :=
  ⟨⟨by norm_num,
    (lean_rich_branch InterfaceStabilizedNondim 1 1 1 1 1 2 7 ⟨1, 1, 1, 1, 1⟩).1 (by norm_num)⟩,
   ⟨by norm_num,
    (lean_rich_branch InterfaceStabilizedNondim 1 1 1 1 3 2 7 ⟨1, 1, 1, 1, 1⟩).2 (by norm_num)⟩⟩

/-- C8 counterexample: scaling T0, T3a, T4, DeltaT_PH, DeltaT_RC by k = 2
while keeping LHV (and cp) fixed does not preserve the non-dimensional
solution.  With iota = 1, delta = mu = 0, offsets 0, and inputs cp = 1,
T0 = T3a = T4 = 1, f = 1, f_st = 2, LHV = 1, the vector
(5/4, 7/4, 3/2, 5/4, 3/2) zeroes all five residuals; after scaling the
temperatures by 2, residual 2 at the same vector equals -(1/4), whose
magnitude exceeds the 1e-6 tolerance, because equation 2 contains
LHV/(cp*T0), which is not invariant when T0 alone is scaled. -/
theorem scale_invariance_cex :
    (PMCNondim.f1 ⟨1, 0, 0, 0, 0⟩ 1 1 1 1 1 2 1 ⟨5/4, 7/4, 3/2, 5/4, 3/2⟩ = 0 ∧
     PMCNondim.f2 ⟨1, 0, 0, 0, 0⟩ 1 1 1 1 1 2 1 ⟨5/4, 7/4, 3/2, 5/4, 3/2⟩ = 0 ∧
     PMCNondim.f3 ⟨1, 0, 0, 0, 0⟩ 1 1 1 1 1 2 1 ⟨5/4, 7/4, 3/2, 5/4, 3/2⟩ = 0 ∧
     PMCNondim.f4 ⟨1, 0, 0, 0, 0⟩ 1 1 1 1 1 2 1 ⟨5/4, 7/4, 3/2, 5/4, 3/2⟩ = 0 ∧
     PMCNondim.f5 ⟨1, 0, 0, 0, 0⟩ 1 1 1 1 1 2 1 ⟨5/4, 7/4, 3/2, 5/4, 3/2⟩ = 0) ∧
    PMCNondim.f2 ⟨1, 0, 0, 2 * 0, 2 * 0⟩ 1 (2 * 1) (2 * 1) (2 * 1) 1 2 1
      ⟨5/4, 7/4, 3/2, 5/4, 3/2⟩ = -(1/4) ∧
    (1/1000000 : ℚ) < 1/4 := by
  norm_num [PMCNondim.f1, PMCNondim.f2, PMCNondim.f3, PMCNondim.f4, PMCNondim.f5]

/-- C8 amended: scaling T0, T3a, T4, DeltaT_PH, DeltaT_RC and additionally
LHV by the same nonzero factor k leaves every one of the five residual
functions pointwise unchanged, hence the set of non-dimensional solution
vectors is unchanged. -/
theorem scale_invariance_amended (p : NondimData) (cp T0 T3a T4 f f_st LHV k : ℚ)
    (v : Theta) (hk : k ≠ 0) :
    PMCNondim.f1 ⟨p.iota, p.delta, p.mu, k * p.DeltaT_PH, k * p.DeltaT_RC⟩
        cp (k * T0) (k * T3a) (k * T4) f f_st (k * LHV) v =
      PMCNondim.f1 p cp T0 T3a T4 f f_st LHV v ∧
    PMCNondim.f2 ⟨p.iota, p.delta, p.mu, k * p.DeltaT_PH, k * p.DeltaT_RC⟩
        cp (k * T0) (k * T3a) (k * T4) f f_st (k * LHV) v =
      PMCNondim.f2 p cp T0 T3a T4 f f_st LHV v ∧
    PMCNondim.f3 ⟨p.iota, p.delta, p.mu, k * p.DeltaT_PH, k * p.DeltaT_RC⟩
        cp (k * T0) (k * T3a) (k * T4) f f_st (k * LHV) v =
      PMCNondim.f3 p cp T0 T3a T4 f f_st LHV v ∧
    PMCNondim.f4 ⟨p.iota, p.delta, p.mu, k * p.DeltaT_PH, k * p.DeltaT_RC⟩
        cp (k * T0) (k * T3a) (k * T4) f f_st (k * LHV) v =
      PMCNondim.f4 p cp T0 T3a T4 f f_st LHV v ∧
    PMCNondim.f5 ⟨p.iota, p.delta, p.mu, k * p.DeltaT_PH, k * p.DeltaT_RC⟩
        cp (k * T0) (k * T3a) (k * T4) f f_st (k * LHV) v =
      PMCNondim.f5 p cp T0 T3a T4 f f_st LHV v := by
  have hdiv : ∀ a b : ℚ, k * a / (k * b) = a / b := fun a b => mul_div_mul_cancel_q k a b hk
  refine ⟨?_, ?_, ?_, ?_, ?_⟩
  · simp only [PMCNondim.f1, hdiv]
  · by_cases h : f < f_st
    · simp only [PMCNondim.f2, if_pos h, mul_left_comm cp k, hdiv]
    · simp only [PMCNondim.f2, if_neg h, mul_div_assoc k LHV, mul_left_comm cp k, hdiv]
  · simp only [PMCNondim.f3, hdiv]
  · simp only [PMCNondim.f4, hdiv]
  · simp only [PMCNondim.f5, hdiv]

/-- Witness for C8 amended: concrete instance with k = 2. -/
theorem scale_invariance_amended_witness :
    PMCNondim.f1 ⟨InterfaceStabilizedNondim.iota, InterfaceStabilizedNondim.delta,
        InterfaceStabilizedNondim.mu, 2 * InterfaceStabilizedNondim.DeltaT_PH,
        2 * InterfaceStabilizedNondim.DeltaT_RC⟩ 1 (2 * 1) (2 * 1) (2 * 1) 1 2 (2 * 1)
        ⟨5/4, 7/4, 3/2, 5/4, 3/2⟩ =
      PMCNondim.f1 InterfaceStabilizedNondim 1 1 1 1 1 2 1 ⟨5/4, 7/4, 3/2, 5/4, 3/2⟩ ∧
    PMCNondim.f2 ⟨InterfaceStabilizedNondim.iota, InterfaceStabilizedNondim.delta,
        InterfaceStabilizedNondim.mu, 2 * InterfaceStabilizedNondim.DeltaT_PH,
        2 * InterfaceStabilizedNondim.DeltaT_RC⟩ 1 (2 * 1) (2 * 1) (2 * 1) 1 2 (2 * 1)
        ⟨5/4, 7/4, 3/2, 5/4, 3/2⟩ =
      PMCNondim.f2 InterfaceStabilizedNondim 1 1 1 1 1 2 1 ⟨5/4, 7/4, 3/2, 5/4, 3/2⟩ ∧
    PMCNondim.f3 ⟨InterfaceStabilizedNondim.iota, InterfaceStabilizedNondim.delta,
        InterfaceStabilizedNondim.mu, 2 * InterfaceStabilizedNondim.DeltaT_PH,
        2 * InterfaceStabilizedNondim.DeltaT_RC⟩ 1 (2 * 1) (2 * 1) (2 * 1) 1 2 (2 * 1)
        ⟨5/4, 7/4, 3/2, 5/4, 3/2⟩ =
      PMCNondim.f3 InterfaceStabilizedNondim 1 1 1 1 1 2 1 ⟨5/4, 7/4, 3/2, 5/4, 3/2⟩ ∧
    PMCNondim.f4 ⟨InterfaceStabilizedNondim.iota, InterfaceStabilizedNondim.delta,
        InterfaceStabilizedNondim.mu, 2 * InterfaceStabilizedNondim.DeltaT_PH,
        2 * InterfaceStabilizedNondim.DeltaT_RC⟩ 1 (2 * 1) (2 * 1) (2 * 1) 1 2 (2 * 1)
        ⟨5/4, 7/4, 3/2, 5/4, 3/2⟩ =
      PMCNondim.f4 InterfaceStabilizedNondim 1 1 1 1 1 2 1 ⟨5/4, 7/4, 3/2, 5/4, 3/2⟩ ∧
    PMCNondim.f5 ⟨InterfaceStabilizedNondim.iota, InterfaceStabilizedNondim.delta,
        InterfaceStabilizedNondim.mu, 2 * InterfaceStabilizedNondim.DeltaT_PH,
        2 * InterfaceStabilizedNondim.DeltaT_RC⟩ 1 (2 * 1) (2 * 1) (2 * 1) 1 2 (2 * 1)
        ⟨5/4, 7/4, 3/2, 5/4, 3/2⟩ =
      PMCNondim.f5 InterfaceStabilizedNondim 1 1 1 1 1 2 1 ⟨5/4, 7/4, 3/2, 5/4, 3/2⟩ :=
  scale_invariance_amended InterfaceStabilizedNondim 1 1 1 1 1 2 1 2
    ⟨5/4, 7/4, 3/2, 5/4, 3/2⟩ (by norm_num)

/-- C2: evaluation of the dimensional entry point at the failing input,
namely the repository driver's own configuration (src/driver_dim.py: the
InterfaceStabilized preset with emissivity overridden to 0, cp = 1200,
T0 = T2 = 300 K, T3a = 1400 - (f/(f+1))*(LHV/cp) = 596450/873 K,
T4 = 1400 K, f_loc = 1250/64207, f_st = 25/429, LHV = 50.06e6 J/kg).
PMC.run raises NameError on the unbound name ct at the computation of
delta and never assigns any temperature, so the dimensional path can never
produce the PMCResult that the non-dimensional path produces. -/
theorem cross_variant_bug :
    PMC.run { InterfaceStabilized with emissivity := 0 } 1200 300 (596450/873) 1400
        (1250/64207) (25/429) 50060000 = Except.error PyError.nameError_ct := by
  norm_num [PMC.run, InterfaceStabilized]

/-- C3: evaluation of the Group Reducer at the failing input, the
InterfaceStabilized preset (voidFrac 0.805, dp_upstr 0.492e-3 m).  The
code computes K_R_1 = 3*(1-voidFrac)/(dp_upstr*1000) = 195/164, which is
1000 times smaller than the value 3*(1-voidFrac)/dp_upstr = 48750/41
required by the spec formula with the pore diameter in metres and the
result in reciprocal metres (the units the code's own comment claims);
moreover delta is never computed at all, because the delta line raises
NameError on the unbound name ct. -/
theorem group_reducer_units_bug :
    K_R_1 InterfaceStabilized = 195/164 ∧
    specK_R_1 InterfaceStabilized = 48750/41 ∧
    K_R_1 InterfaceStabilized ≠ specK_R_1 InterfaceStabilized ∧
    K_R_1 InterfaceStabilized = specK_R_1 InterfaceStabilized / 1000 ∧
    PMC.run InterfaceStabilized 1200 300 683 1400 1 (25/429) 50060000 =
      Except.error PyError.nameError_ct := by
  norm_num [K_R_1, specK_R_1, PMC.run, InterfaceStabilized]

/-- C4 counterexample: at T0 = 0 the first statement executed,
th_3a = T3a/T0, raises ZeroDivisionError, so PMC.run does not raise
NameError at the delta computation for every input: the claim's universal
quantification over T0 fails at T0 = 0. -/
theorem dim_name_error_cex :
    PMC.run InterfaceStabilized 1 0 1 1 1 1 1 = Except.error PyError.zeroDivisionError ∧
    PMC.run InterfaceStabilized 1 0 1 1 1 1 1 ≠ Except.error PyError.nameError_ct := by
  norm_num [PMC.run]
  decide

/-- C4 amended: whenever T0, the two pore diameters and the product
massFlux*cp*L are nonzero (so that no earlier float division raises),
PMC.run raises NameError on the unbound name ct at the computation of the
delta group, before any solve is attempted; and for every input whatsoever
PMC.run raises some error and never returns a result, so only the
non-dimensional path can complete. -/
theorem dim_name_error (p : PMCData) (cp T0 T3a T4 f f_st LHV : ℚ) :
    (T0 ≠ 0 → p.dp_upstr ≠ 0 → p.dp_dwnstr ≠ 0 → p.massFlux * cp * p.L ≠ 0 →
      PMC.run p cp T0 T3a T4 f f_st LHV = Except.error PyError.nameError_ct) ∧
    ∀ u, PMC.run p cp T0 T3a T4 f f_st LHV ≠ Except.ok u := by
  constructor
  · intro h1 h2 h3 h4
    have t1000 : (1000 : ℚ) ≠ 0 := by norm_num
    simp only [PMC.run, if_neg h1, if_neg (mul_ne_zero h2 t1000),
      if_neg (mul_ne_zero h3 t1000), if_neg h4]
  · intro u
    unfold PMC.run
    split
    · simp
    · split
      · simp
      · split
        · simp
        · split <;> simp

/-- Witness for C4 amended: the driver's input has all guards nonzero, and
there PMC.run indeed raises NameError on ct. -/
theorem dim_name_error_witness :
    PMC.run InterfaceStabilized 1200 300 (596450/873) 1400 (1250/64207) (25/429) 50060000 =
      Except.error PyError.nameError_ct :=
  (dim_name_error InterfaceStabilized 1200 300 (596450/873) 1400 (1250/64207) (25/429)
      50060000).1
    (by norm_num) (by norm_num [InterfaceStabilized]) (by norm_num [InterfaceStabilized])
    (by norm_num [InterfaceStabilized])

/-- C7 counterexample: pore diameter 0 raises ZeroDivisionError, not the
ConfigurationError the claim names, and T0 = 0 raises ZeroDivisionError,
not DomainError; no code in the repository defines or raises either of
those error kinds. -/
theorem config_rejection_cex :
    PMC.run { InterfaceStabilized with dp_upstr := 0 } 1 300 1 1 1 1 1 =
      Except.error PyError.zeroDivisionError ∧
    PMC.run { InterfaceStabilized with dp_upstr := 0 } 1 300 1 1 1 1 1 ≠
      Except.error PyError.configurationError ∧
    PMC.run InterfaceStabilized 1 0 1 1 1 1 1 = Except.error PyError.zeroDivisionError ∧
    PMC.run InterfaceStabilized 1 0 1 1 1 1 1 ≠ Except.error PyError.domainError := by
  norm_num [PMC.run, InterfaceStabilized]
  decide

/-- C7 amended: the Group Reducer performs no validation.  T0 = 0 raises
ZeroDivisionError at th_3a = T3a/T0; with T0 nonzero, a zero pore diameter
raises ZeroDivisionError at the corresponding extinction coefficient; with
nonzero pore diameters, massFlux*cp*L = 0 raises ZeroDivisionError at
iota; negative pore diameters, conductivity, mass flux or length trigger
no validation error and execution proceeds to the unconditional NameError
at delta; in every case PMC.run raises and no partial or
successful-looking result is returned. -/
theorem config_rejection_amended (p : PMCData) (cp T0 T3a T4 f f_st LHV : ℚ) :
    (T0 = 0 → PMC.run p cp T0 T3a T4 f f_st LHV = Except.error PyError.zeroDivisionError) ∧
    (T0 ≠ 0 → p.dp_upstr = 0 →
      PMC.run p cp T0 T3a T4 f f_st LHV = Except.error PyError.zeroDivisionError) ∧
    (T0 ≠ 0 → p.dp_upstr ≠ 0 → p.dp_dwnstr = 0 →
      PMC.run p cp T0 T3a T4 f f_st LHV = Except.error PyError.zeroDivisionError) ∧
    (T0 ≠ 0 → p.dp_upstr ≠ 0 → p.dp_dwnstr ≠ 0 → p.massFlux * cp * p.L = 0 →
      PMC.run p cp T0 T3a T4 f f_st LHV = Except.error PyError.zeroDivisionError) ∧
    (T0 ≠ 0 → p.dp_upstr ≠ 0 → p.dp_dwnstr ≠ 0 → p.massFlux * cp * p.L ≠ 0 →
      PMC.run p cp T0 T3a T4 f f_st LHV = Except.error PyError.nameError_ct) ∧
    ∀ u, PMC.run p cp T0 T3a T4 f f_st LHV ≠ Except.ok u := by
  have t1000 : (1000 : ℚ) ≠ 0 := by norm_num
  refine ⟨?_, ?_, ?_, ?_, ?_, ?_⟩
  · intro h1
    simp only [PMC.run, if_pos h1]
  · intro h1 h2
    simp only [PMC.run, if_neg h1, if_pos (by rw [h2, zero_mul] : p.dp_upstr * 1000 = 0)]
  · intro h1 h2 h3
    simp only [PMC.run, if_neg h1, if_neg (mul_ne_zero h2 t1000),
      if_pos (by rw [h3, zero_mul] : p.dp_dwnstr * 1000 = 0)]
  · intro h1 h2 h3 h4
    simp only [PMC.run, if_neg h1, if_neg (mul_ne_zero h2 t1000),
      if_neg (mul_ne_zero h3 t1000), if_pos h4]
  · intro h1 h2 h3 h4
    simp only [PMC.run, if_neg h1, if_neg (mul_ne_zero h2 t1000),
      if_neg (mul_ne_zero h3 t1000), if_neg h4]
  · intro u
    unfold PMC.run
    split
    · simp
    · split
      · simp
      · split
        · simp
        · split <;> simp

/-- Witness for C7 amended: two concrete branches, T0 = 0 and a zero
upstream pore diameter at T0 = 300, both yielding ZeroDivisionError. -/
theorem config_rejection_amended_witness :
    PMC.run InterfaceStabilized 2 0 1 1 1 1 1 = Except.error PyError.zeroDivisionError ∧
    PMC.run { InterfaceStabilized with dp_upstr := 0 } 2 300 1 1 1 1 1 =
      Except.error PyError.zeroDivisionError :=
  ⟨(config_rejection_amended InterfaceStabilized 2 0 1 1 1 1 1).1 rfl,
   (config_rejection_amended { InterfaceStabilized with dp_upstr := 0 } 2 300 1 1 1 1 1).2.1
     (by norm_num) rfl⟩
